import Mathlib

/-!
Shallow embedding of `src/main.py` (Kia-Shortcuts): the vehicle-state
refresh-and-cache coordinator and the HTTP handlers built on it.

Numbers reported by the upstream library are modelled as `Option Int`
(`none` = Python `None` / absent attribute).  Python truthiness on these
values (`if range_miles`) is `none ↦ False`, `some r ↦ r ≠ 0`; Python's
`None == 0` is `False`, so `range_miles == 0` holds only for `some 0`.
-/

namespace KiaShortcuts

/-- A vehicle record as read off a `hyundai_kia_connect_api` `Vehicle`
object: exactly the attributes `main.py` touches. -/
structure Vehicle where
  id : String
  name : String
  model : Option String
  year : Option Int
  ev_battery_percentage : Option Int
  ev_driving_range : Option Int
  ev_battery_is_charging : Option Bool
  ev_estimated_current_charge_duration : Option Int
  deriving Repr, DecidableEq

/-- The single-slot Last-Known-Good Cache: the module-level
`last_valid_status` dict of `main.py` (lines 215-219). -/
structure LastValidStatus where
  battery_percentage : Option Int
  range_miles : Option Int
  model : Option String
  deriving Repr, DecidableEq

/-- Initial value of the global `last_valid_status` dict: every slot `None`. -/
def last_valid_status_init : LastValidStatus :=
  { battery_percentage := none, range_miles := none, model := none }

/-- The JSON payload returned by a successful `/get_vehicle_status`
(lines 250-256). -/
structure StatusPayload where
  battery_percentage : Option Int
  range_miles : Option Int
  model : Option String
  charging : Option Bool
  charge_minutes : Option Int
  deriving Repr, DecidableEq

/-- Python truthiness of an optional number: `None` and `0` are falsy. -/
def pyTruthyInt : Option Int → Bool
  | none => false
  | some r => r != 0

/-- `range_miles and range_miles > 0` (line 240): truthiness short-circuits,
so `> 0` is only evaluated on an actual number. -/
def rangeIsCacheable (r : Option Int) : Bool :=
  pyTruthyInt r && (r.getD 0 > 0)

/-- `range_miles == 0` (line 247): Python `None == 0` is `False`. -/
def rangeEqZero : Option Int → Bool
  | none => false
  | some r => r == 0

/-- The body of `/get_vehicle_status` after the forced refresh and the
vehicle lookup succeed (lines 233-256): extract the fields, cache the
range when it is truthy and positive, backfill an exact-zero range from
the cache, and build the payload.  Returns the payload and the new value
of the global `last_valid_status`. -/
def get_vehicle_status_core (v : Vehicle) (cache : LastValidStatus) :
    StatusPayload × LastValidStatus :=
  let battery := v.ev_battery_percentage
  let model := v.model
  let range_miles0 := v.ev_driving_range
  let charging := v.ev_battery_is_charging
  let charge_minutes := v.ev_estimated_current_charge_duration
  let cache1 :=
    if rangeIsCacheable range_miles0 then
      { battery_percentage := battery, range_miles := range_miles0,
        model := model }
    else cache
  let range_miles1 :=
    if rangeEqZero range_miles0 then cache1.range_miles else range_miles0
  ({ battery_percentage := battery, range_miles := range_miles1,
     model := model, charging := charging,
     charge_minutes := charge_minutes }, cache1)

theorem rangeIsCacheable_pos (r : Int) (hr : 0 < r) :
    rangeIsCacheable (some r) = true := by
  simp [rangeIsCacheable, pyTruthyInt]
  omega

theorem rangeIsCacheable_nonpos (r : Int) (hr : r ≤ 0) :
    rangeIsCacheable (some r) = false := by
  simp [rangeIsCacheable, pyTruthyInt]
  omega

theorem rangeEqZero_pos (r : Int) (hr : r ≠ 0) :
    rangeEqZero (some r) = false := by
  simp [rangeEqZero]
  omega

theorem rangeIsCacheable_eq_true_iff (ro : Option Int) :
    rangeIsCacheable ro = true ↔ ∃ r, ro = some r ∧ 0 < r := by
  cases ro with
  | none => simp [rangeIsCacheable, pyTruthyInt]
  | some r =>
    simp [rangeIsCacheable, pyTruthyInt]
    omega

/-- One reconcile call seen as a transition on the cache alone. -/
def reconcile_step (c : LastValidStatus) (v : Vehicle) : LastValidStatus :=
  (get_vehicle_status_core v c).2

/-- The cache after a whole sequence of `/get_vehicle_status` calls in one
process, starting from `c`. -/
def runReconciles (recs : List Vehicle) (c : LastValidStatus) :
    LastValidStatus :=
  recs.foldl reconcile_step c

/-- The cache's stored range, when present, is strictly positive. -/
def cacheGood (c : LastValidStatus) : Prop :=
  ∀ r : Int, c.range_miles = some r → 0 < r

theorem reconcile_step_preserves_good (c : LastValidStatus) (v : Vehicle)
    (h : cacheGood c) : cacheGood (reconcile_step c v) := by
  intro r hr
  simp only [reconcile_step, get_vehicle_status_core] at hr
  by_cases hc : rangeIsCacheable v.ev_driving_range = true
  · obtain ⟨r0, hr0, hpos⟩ := (rangeIsCacheable_eq_true_iff _).mp hc
    rw [if_pos hc, hr0] at hr
    simp at hr
    omega
  · rw [if_neg hc] at hr
    exact h r hr

theorem runReconciles_good (recs : List Vehicle) (c : LastValidStatus)
    (h : cacheGood c) : cacheGood (runReconciles recs c) := by
  induction recs generalizing c with
  | nil => exact h
  | cons v rest ih =>
    exact ih (reconcile_step c v) (reconcile_step_preserves_good c v h)

theorem reconcile_step_preserves_populated (c : LastValidStatus) (v : Vehicle)
    (h : c.range_miles.isSome) : (reconcile_step c v).range_miles.isSome := by
  simp only [reconcile_step, get_vehicle_status_core]
  by_cases hc : rangeIsCacheable v.ev_driving_range = true
  · obtain ⟨r0, hr0, hpos⟩ := (rangeIsCacheable_eq_true_iff _).mp hc
    rw [if_pos hc, hr0]
    rfl
  · rw [if_neg hc]
    exact h

theorem core_pos_eq (v : Vehicle) (c : LastValidStatus) (r : Int)
    (hv : v.ev_driving_range = some r) (hr : 0 < r) :
    get_vehicle_status_core v c =
      ({ battery_percentage := v.ev_battery_percentage,
         range_miles := some r, model := v.model,
         charging := v.ev_battery_is_charging,
         charge_minutes := v.ev_estimated_current_charge_duration },
       { battery_percentage := v.ev_battery_percentage,
         range_miles := some r, model := v.model }) := by
  simp [get_vehicle_status_core, hv, rangeIsCacheable_pos r hr,
    rangeEqZero_pos r (by omega)]

theorem core_zero_eq (v : Vehicle) (c : LastValidStatus)
    (hv : v.ev_driving_range = some 0) :
    get_vehicle_status_core v c =
      ({ battery_percentage := v.ev_battery_percentage,
         range_miles := c.range_miles, model := v.model,
         charging := v.ev_battery_is_charging,
         charge_minutes := v.ev_estimated_current_charge_duration }, c) := by
  simp [get_vehicle_status_core, hv, rangeIsCacheable, pyTruthyInt,
    rangeEqZero]

/-- Sample record with a strictly positive range (spec scenario A). -/
def vPos : Vehicle :=
  { id := "v1", name := "car", model := some "EV6", year := some 2023,
    ev_battery_percentage := some 80, ev_driving_range := some 120,
    ev_battery_is_charging := some false,
    ev_estimated_current_charge_duration := none }

/-- Sample record with a zero range (spec scenarios B and C). -/
def vZero : Vehicle :=
  { id := "v1", name := "car", model := some "EV6", year := some 2023,
    ev_battery_percentage := some 79, ev_driving_range := some 0,
    ev_battery_is_charging := some true,
    ev_estimated_current_charge_duration := some 45 }

/-- Sample record with a negative reported range. -/
def vNeg : Vehicle :=
  { id := "v1", name := "car", model := some "EV6", year := some 2023,
    ev_battery_percentage := some 50, ev_driving_range := some (-5),
    ev_battery_is_charging := some false,
    ev_estimated_current_charge_duration := none }

/-- Sample record with an absent range. -/
def vAbsent : Vehicle :=
  { id := "v1", name := "car", model := some "EV6", year := some 2023,
    ev_battery_percentage := some 50, ev_driving_range := none,
    ev_battery_is_charging := some false,
    ev_estimated_current_charge_duration := none }

/-- A populated cache holding a prior positive range of 120. -/
def cachePos : LastValidStatus :=
  { battery_percentage := some 80, range_miles := some 120,
    model := some "EV6" }

end KiaShortcuts

namespace KiaShortcuts

/-- C1: a strictly positive present range is echoed in the payload and
overwrites the whole cache slot with this record's battery, range, model. -/
theorem C1_positive_range_echoed_and_cached (v : Vehicle) (c : LastValidStatus)
    (r : Int) (hv : v.ev_driving_range = some r) (hr : 0 < r) :
    (get_vehicle_status_core v c).1.range_miles = some r ∧
    (get_vehicle_status_core v c).2 =
      { battery_percentage := v.ev_battery_percentage,
        range_miles := some r, model := v.model } := by
  constructor
  · simp [get_vehicle_status_core, hv, rangeIsCacheable_pos r hr,
      rangeEqZero_pos r (by omega)]
  · simp [get_vehicle_status_core, hv, rangeIsCacheable_pos r hr]

theorem C1_witness :
    ({ id := "v1", name := "car", model := some "EV6", year := some 2023,
       ev_battery_percentage := some 80, ev_driving_range := some 120,
       ev_battery_is_charging := some false,
       ev_estimated_current_charge_duration := none } :
        Vehicle).ev_driving_range = some 120 ∧ (0 : Int) < 120 ∧
    ((get_vehicle_status_core
       { id := "v1", name := "car", model := some "EV6", year := some 2023,
         ev_battery_percentage := some 80, ev_driving_range := some 120,
         ev_battery_is_charging := some false,
         ev_estimated_current_charge_duration := none }
       last_valid_status_init).1.range_miles = some 120 ∧
     (get_vehicle_status_core
       { id := "v1", name := "car", model := some "EV6", year := some 2023,
         ev_battery_percentage := some 80, ev_driving_range := some 120,
         ev_battery_is_charging := some false,
         ev_estimated_current_charge_duration := none }
       last_valid_status_init).2 =
       { battery_percentage := some 80, range_miles := some 120,
         model := some "EV6" }) :=
  ⟨rfl, by decide,
   C1_positive_range_echoed_and_cached _ last_valid_status_init 120 rfl
     (by decide)⟩

end KiaShortcuts

namespace KiaShortcuts

/-- C2: on a record whose range is exactly 0 while the cache holds a prior
positive range R, the payload's range is R, every other payload field is
taken from the current record, and the cache is left unchanged. -/
theorem C2_zero_range_backfilled_from_cache (v : Vehicle)
    (c : LastValidStatus) (R : Int) (hv : v.ev_driving_range = some 0)
    (hc : c.range_miles = some R) (hR : 0 < R) :
    (get_vehicle_status_core v c).1 =
      { battery_percentage := v.ev_battery_percentage,
        range_miles := some R, model := v.model,
        charging := v.ev_battery_is_charging,
        charge_minutes := v.ev_estimated_current_charge_duration } ∧
    (get_vehicle_status_core v c).2 = c := by
  rw [core_zero_eq v c hv]
  exact ⟨by simp [hc], rfl⟩

theorem C2_witness :
    vZero.ev_driving_range = some 0 ∧
    cachePos.range_miles = some 120 ∧ (0 : Int) < 120 ∧
    ((get_vehicle_status_core vZero cachePos).1 =
      { battery_percentage := some 79, range_miles := some 120,
        model := some "EV6", charging := some true,
        charge_minutes := some 45 } ∧
     (get_vehicle_status_core vZero cachePos).2 = cachePos) :=
  ⟨rfl, rfl, by decide,
   C2_zero_range_backfilled_from_cache vZero cachePos 120 rfl rfl (by decide)⟩

/-- C3: on a record whose range is exactly 0 while the cache is empty, the
payload's range is absent (`none`), the other fields still come from the
record, and no error arises (the operation is total and returns a payload). -/
theorem C3_zero_range_empty_cache (v : Vehicle) (c : LastValidStatus)
    (hv : v.ev_driving_range = some 0) (hc : c.range_miles = none) :
    (get_vehicle_status_core v c).1 =
      { battery_percentage := v.ev_battery_percentage,
        range_miles := none, model := v.model,
        charging := v.ev_battery_is_charging,
        charge_minutes := v.ev_estimated_current_charge_duration } ∧
    (get_vehicle_status_core v c).2 = c := by
  rw [core_zero_eq v c hv]
  exact ⟨by simp [hc], rfl⟩

theorem C3_witness :
    vZero.ev_driving_range = some 0 ∧
    last_valid_status_init.range_miles = none ∧
    ((get_vehicle_status_core vZero last_valid_status_init).1 =
      { battery_percentage := some 79, range_miles := none,
        model := some "EV6", charging := some true,
        charge_minutes := some 45 } ∧
     (get_vehicle_status_core vZero last_valid_status_init).2 =
       last_valid_status_init) :=
  ⟨rfl, rfl, C3_zero_range_empty_cache vZero last_valid_status_init rfl rfl⟩

/-- C4: an absent range passes through as `none` with no cache write; a
negative range passes through unchanged with no cache write; and whenever
the payload's range differs from the record's, the record's range was
exactly 0 (only exact 0 triggers substitution). -/
theorem C4_only_exact_zero_triggers_substitution :
    (∀ v c, v.ev_driving_range = none →
      (get_vehicle_status_core v c).1.range_miles = none ∧
      (get_vehicle_status_core v c).2 = c) ∧
    (∀ v c (r : Int), v.ev_driving_range = some r → r < 0 →
      (get_vehicle_status_core v c).1.range_miles = some r ∧
      (get_vehicle_status_core v c).2 = c) ∧
    (∀ v c, (get_vehicle_status_core v c).1.range_miles ≠
        v.ev_driving_range → v.ev_driving_range = some 0) := by
  refine ⟨?_, ?_, ?_⟩
  · intro v c hv
    constructor
    · simp [get_vehicle_status_core, hv, rangeIsCacheable, pyTruthyInt,
        rangeEqZero]
    · simp [get_vehicle_status_core, hv, rangeIsCacheable, pyTruthyInt]
  · intro v c r hv hneg
    constructor
    · simp [get_vehicle_status_core, hv,
        rangeIsCacheable_nonpos r (le_of_lt hneg),
        rangeEqZero_pos r (by omega)]
    · simp [get_vehicle_status_core, hv,
        rangeIsCacheable_nonpos r (le_of_lt hneg)]
  · intro v c hne
    by_contra hz
    apply hne
    cases hr : v.ev_driving_range with
    | none => simp [get_vehicle_status_core, hr, rangeEqZero]
    | some r =>
      have hr0 : r ≠ 0 := by
        intro h0
        exact hz (by rw [hr, h0])
      simp [get_vehicle_status_core, hr, rangeEqZero_pos r hr0]

theorem C4_witness :
    vAbsent.ev_driving_range = none ∧
    vNeg.ev_driving_range = some (-5) ∧ (-5 : Int) < 0 ∧
    ((get_vehicle_status_core vAbsent cachePos).1.range_miles = none ∧
     (get_vehicle_status_core vAbsent cachePos).2 = cachePos) ∧
    ((get_vehicle_status_core vNeg cachePos).1.range_miles = some (-5) ∧
     (get_vehicle_status_core vNeg cachePos).2 = cachePos) :=
  ⟨rfl, rfl, by decide,
   C4_only_exact_zero_triggers_substitution.1 vAbsent cachePos rfl,
   C4_only_exact_zero_triggers_substitution.2.1 vNeg cachePos (-5) rfl
     (by decide)⟩

/-- C9: cache state machine over any sequence of reconcile calls — a
strictly positive reading always (over)writes the cache's range; a
populated cache can never become empty again; and starting from the empty
initial cache, whatever range the cache ever holds is strictly positive. -/
theorem C9_cache_state_machine :
    (∀ v c (r : Int), v.ev_driving_range = some r → 0 < r →
      (reconcile_step c v).range_miles = some r) ∧
    (∀ v c, c.range_miles.isSome → (reconcile_step c v).range_miles.isSome) ∧
    (∀ recs (r : Int),
      (runReconciles recs last_valid_status_init).range_miles = some r →
      0 < r) := by
  refine ⟨?_, ?_, ?_⟩
  · intro v c r hv hr
    simp [reconcile_step, core_pos_eq v c r hv hr]
  · intro v c h
    exact reconcile_step_preserves_populated c v h
  · intro recs r h
    refine runReconciles_good recs last_valid_status_init ?_ r h
    intro r0 h0
    simp [last_valid_status_init] at h0

theorem C9_witness :
    (vPos.ev_driving_range = some 120 ∧ (0 : Int) < 120 ∧
     (reconcile_step last_valid_status_init vPos).range_miles = some 120) ∧
    (cachePos.range_miles.isSome ∧
     (reconcile_step cachePos vZero).range_miles.isSome) ∧
    ((runReconciles [vPos] last_valid_status_init).range_miles = some 120 ∧
     (0 : Int) < 120) :=
  ⟨⟨rfl, by decide,
    C9_cache_state_machine.1 vPos last_valid_status_init 120 rfl (by decide)⟩,
   ⟨rfl, C9_cache_state_machine.2.1 vZero cachePos rfl⟩,
   ⟨by decide, C9_cache_state_machine.2.2 [vPos] 120 (by decide)⟩⟩

/-- C10: reconcile is idempotent on positive-range records — the second of
two consecutive calls with the same record yields the same payload, and the
cache after the second call equals the cache after the first. -/
theorem C10_idempotent_on_positive (v : Vehicle) (c : LastValidStatus)
    (r : Int) (hv : v.ev_driving_range = some r) (hr : 0 < r) :
    (get_vehicle_status_core v (get_vehicle_status_core v c).2).1 =
      (get_vehicle_status_core v c).1 ∧
    (get_vehicle_status_core v (get_vehicle_status_core v c).2).2 =
      (get_vehicle_status_core v c).2 := by
  have h2 := core_pos_eq v (get_vehicle_status_core v c).2 r hv hr
  have h1 := core_pos_eq v c r hv hr
  rw [h2, h1]
  exact ⟨rfl, rfl⟩

theorem C10_witness :
    vPos.ev_driving_range = some 120 ∧ (0 : Int) < 120 ∧
    ((get_vehicle_status_core vPos
        (get_vehicle_status_core vPos last_valid_status_init).2).1 =
      (get_vehicle_status_core vPos last_valid_status_init).1 ∧
     (get_vehicle_status_core vPos
        (get_vehicle_status_core vPos last_valid_status_init).2).2 =
      (get_vehicle_status_core vPos last_valid_status_init).2) :=
  ⟨rfl, by decide,
   C10_idempotent_on_positive vPos last_valid_status_init 120 rfl (by decide)⟩

end KiaShortcuts

namespace KiaShortcuts

/-- Vehicle lookup in the held snapshot; the snapshot is an association
list because a Python dict iterates in insertion order. -/
def lookupVehicle (vs : List (String × Vehicle)) (k : String) :
    Option Vehicle :=
  (vs.find? (fun p => p.1 == k)).map (fun p => p.2)

/-- The process-wide mutable state the handlers touch: the Session
Manager's held snapshot (`vehicle_manager.vehicles`) and the global
`last_valid_status` cache. -/
structure ServerState where
  vehicles : List (String × Vehicle)
  cache : LastValidStatus
  deriving Repr, DecidableEq

/-- The JSON body a handler returns. -/
inductive ResponseBody where
  | errorBody (msg : String)
  | statusPayload (p : StatusPayload)
  | batteryPayload (b : Option Int)
  | vehicleList (l : List (String × String × Option String × Option Int))
  | attrList (l : List String)
  | commandResult (r : String)
  deriving Repr, DecidableEq

/-- What one handler invocation produces: HTTP status, body, the state
left behind, and whether an upstream fetch was performed. -/
structure HandlerResult where
  status : Nat
  body : ResponseBody
  state : ServerState
  fetched : Bool
  deriving Repr, DecidableEq

/-- `/get_vehicle_status` (lines 221-259): auth gate, forced refresh
(`check_and_force_update_vehicles(force_refresh_interval=0)`), dict
lookup `vehicles[VEHICLE_ID]` whose `KeyError` falls into the generic
`except` and yields 500, then the reconcile core.  `upstream` is the
snapshot the forced refresh would install. -/
def get_vehicle_status (auth : Option String) (secret : String)
    (vehicle_id : String) (upstream : List (String × Vehicle))
    (st : ServerState) : HandlerResult :=
  if auth ≠ some secret then
    { status := 403, body := .errorBody "Unauthorized", state := st,
      fetched := false }
  else
    let st1 : ServerState := { st with vehicles := upstream }
    match lookupVehicle st1.vehicles vehicle_id with
    | none =>
      { status := 500, body := .errorBody vehicle_id, state := st1,
        fetched := true }
    | some v =>
      let pc := get_vehicle_status_core v st1.cache
      { status := 200, body := .statusPayload pc.1,
        state := { st1 with cache := pc.2 }, fetched := true }

/-- `/battery_status` (lines 275-299): auth gate, cached-state refresh,
`vehicles.get(VEHICLE_ID)` with an explicit `if not vehicle` 404,
otherwise 200 with the battery percentage. -/
def battery_status (auth : Option String) (secret : String)
    (vehicle_id : String) (upstream : List (String × Vehicle))
    (st : ServerState) : HandlerResult :=
  if auth ≠ some secret then
    { status := 403, body := .errorBody "Unauthorized", state := st,
      fetched := false }
  else
    let st1 : ServerState := { st with vehicles := upstream }
    match lookupVehicle st1.vehicles vehicle_id with
    | none =>
      { status := 404, body := .errorBody "Vehicle not found", state := st1,
        fetched := true }
    | some v =>
      { status := 200, body := .batteryPayload v.ev_battery_percentage,
        state := st1, fetched := true }

/-- `/list_vehicles` (lines 71-111): auth gate, cached-state refresh,
404 on an empty account, otherwise 200 with name/id/model/year rows. -/
def list_vehicles (auth : Option String) (secret : String)
    (upstream : List (String × Vehicle)) (st : ServerState) :
    HandlerResult :=
  if auth ≠ some secret then
    { status := 403, body := .errorBody "Unauthorized", state := st,
      fetched := false }
  else
    let st1 : ServerState := { st with vehicles := upstream }
    if st1.vehicles.isEmpty then
      { status := 404, body := .errorBody "No vehicles found", state := st1,
        fetched := true }
    else
      let vehicle_list := st1.vehicles.map
        (fun p => (p.2.name, p.2.id, p.2.model, p.2.year))
      if vehicle_list.isEmpty then
        { status := 404, body := .errorBody "No valid vehicles found",
          state := st1, fetched := true }
      else
        { status := 200, body := .vehicleList vehicle_list, state := st1,
          fetched := true }

/-- `/start_climate` (lines 114-143): auth gate, cached-state refresh,
then the upstream `start_climate` command, whose outcome is passed in as
`cmd` (it is an external capability); an exception becomes a 500. -/
def start_climate (auth : Option String) (secret : String)
    (upstream : List (String × Vehicle)) (cmd : Except String String)
    (st : ServerState) : HandlerResult :=
  if auth ≠ some secret then
    { status := 403, body := .errorBody "Unauthorized", state := st,
      fetched := false }
  else
    let st1 : ServerState := { st with vehicles := upstream }
    match cmd with
    | .ok r =>
      { status := 200, body := .commandResult r, state := st1,
        fetched := true }
    | .error e =>
      { status := 500, body := .errorBody e, state := st1, fetched := true }

/-- `dir(vehicle)` (line 269): the record's attribute names (the same
list for every record of the class). -/
def dirAttributes (_v : Vehicle) : List String :=
  ["ev_battery_is_charging", "ev_battery_percentage", "ev_driving_range",
   "ev_estimated_current_charge_duration", "id", "model", "name", "year"]

/-- `/debug_vehicle` (lines 263-272): NO auth gate.  The dict lookup
`vehicles[VEHICLE_ID]` runs first (on the held snapshot), then the forced
refresh, then 200 with `dir(vehicle)`; a `KeyError` becomes a 500 before
any refresh happens. -/
def debug_vehicle (auth : Option String) (vehicle_id : String)
    (upstream : List (String × Vehicle)) (st : ServerState) :
    HandlerResult :=
  match lookupVehicle st.vehicles vehicle_id with
  | none =>
    { status := 500, body := .errorBody vehicle_id, state := st,
      fetched := false }
  | some v =>
    { status := 200, body := .attrList (dirAttributes v),
      state := { st with vehicles := upstream }, fetched := true }

/-- Startup resolution of `VEHICLE_ID` (lines 52-58): the environment
value when truthy, else the first key of the vehicles dict, else a fatal
configuration error. -/
def resolve_default_vehicle (configured : Option String)
    (vehicles : List (String × Vehicle)) : Except String String :=
  let truthy := match configured with
    | none => false
    | some s => s != ""
  if truthy then .ok (configured.getD "")
  else
    match vehicles with
    | [] => .error "No vehicles found in the account. Please ensure your Kia account has at least one vehicle."
    | (vid, _) :: _ => .ok vid

end KiaShortcuts

namespace KiaShortcuts

/-- C5: a command request whose Authorization header differs from the
shared secret gets the 403 unauthorized response from each gated handler,
with no upstream fetch and the server state (snapshot, cache) unchanged. -/
theorem C5_unauthorized_no_fetch_no_mutation (auth : Option String)
    (secret : String) (vehicle_id : String)
    (upstream : List (String × Vehicle)) (cmd : Except String String)
    (st : ServerState) (h : auth ≠ some secret) :
    list_vehicles auth secret upstream st =
      { status := 403, body := .errorBody "Unauthorized", state := st,
        fetched := false } ∧
    get_vehicle_status auth secret vehicle_id upstream st =
      { status := 403, body := .errorBody "Unauthorized", state := st,
        fetched := false } ∧
    start_climate auth secret upstream cmd st =
      { status := 403, body := .errorBody "Unauthorized", state := st,
        fetched := false } := by
  refine ⟨?_, ?_, ?_⟩
  · rw [list_vehicles, if_pos h]
  · rw [get_vehicle_status, if_pos h]
  · rw [start_climate, if_pos h]

theorem C5_witness :
    (none : Option String) ≠ some "topsecret" ∧
    (list_vehicles none "topsecret" [("v1", vPos)]
        ⟨[], last_valid_status_init⟩ =
      { status := 403, body := .errorBody "Unauthorized",
        state := ⟨[], last_valid_status_init⟩, fetched := false } ∧
     get_vehicle_status none "topsecret" "v1" [("v1", vPos)]
        ⟨[], last_valid_status_init⟩ =
      { status := 403, body := .errorBody "Unauthorized",
        state := ⟨[], last_valid_status_init⟩, fetched := false } ∧
     start_climate none "topsecret" [("v1", vPos)] (.ok "started")
        ⟨[], last_valid_status_init⟩ =
      { status := 403, body := .errorBody "Unauthorized",
        state := ⟨[], last_valid_status_init⟩, fetched := false }) :=
  ⟨by decide,
   C5_unauthorized_no_fetch_no_mutation none "topsecret" "v1"
     [("v1", vPos)] (.ok "started") ⟨[], last_valid_status_init⟩
     (by decide)⟩

/-- C6: `/debug_vehicle` ignores the Authorization header entirely — its
result is identical for any two header values — and whenever the
configured vehicle is present in the held snapshot it performs the forced
refresh and returns the attribute list with status 200. -/
theorem C6_debug_vehicle_ignores_auth (vehicle_id : String)
    (upstream : List (String × Vehicle)) (st : ServerState) :
    (∀ auth1 auth2 : Option String,
      debug_vehicle auth1 vehicle_id upstream st =
      debug_vehicle auth2 vehicle_id upstream st) ∧
    (∀ v, lookupVehicle st.vehicles vehicle_id = some v →
      ∀ auth : Option String,
        debug_vehicle auth vehicle_id upstream st =
          { status := 200, body := .attrList (dirAttributes v),
            state := { st with vehicles := upstream }, fetched := true }) := by
  constructor
  · intro a1 a2
    rfl
  · intro v hv auth
    simp [debug_vehicle, hv]

theorem C6_witness :
    lookupVehicle [("v1", vPos)] "v1" = some vPos ∧
    (debug_vehicle none "v1" [("v1", vZero)]
        ⟨[("v1", vPos)], last_valid_status_init⟩ =
      debug_vehicle (some "topsecret") "v1" [("v1", vZero)]
        ⟨[("v1", vPos)], last_valid_status_init⟩) ∧
    (debug_vehicle none "v1" [("v1", vZero)]
        ⟨[("v1", vPos)], last_valid_status_init⟩ =
      { status := 200, body := .attrList (dirAttributes vPos),
        state := ⟨[("v1", vZero)], last_valid_status_init⟩,
        fetched := true }) :=
  ⟨by decide,
   (C6_debug_vehicle_ignores_auth "v1" [("v1", vZero)]
      ⟨[("v1", vPos)], last_valid_status_init⟩).1 none (some "topsecret"),
   (C6_debug_vehicle_ignores_auth "v1" [("v1", vZero)]
      ⟨[("v1", vPos)], last_valid_status_init⟩).2 vPos (by decide) none⟩

/-- C7: with no vehicle configured, startup resolution of the default
vehicle fails with the "no vehicles" configuration error on an empty
snapshot and deterministically returns the first identifier in iteration
order on a non-empty one. -/
theorem C7_resolve_default_vehicle :
    (resolve_default_vehicle none [] =
      .error "No vehicles found in the account. Please ensure your Kia account has at least one vehicle.") ∧
    (∀ (vid : String) (v : Vehicle) (rest : List (String × Vehicle)),
      resolve_default_vehicle none ((vid, v) :: rest) = .ok vid) := by
  constructor
  · rfl
  · intro vid v rest
    rfl

end KiaShortcuts

namespace KiaShortcuts

/-- C8 counterexample: an authorized `/get_vehicle_status` request — a
status request — with the configured vehicle absent from the refreshed
snapshot answers 500 (the dict `KeyError` lands in the generic `except`),
not the 404 the claim requires of every status request. -/
theorem C8_counterexample_get_vehicle_status_500 :
    (get_vehicle_status (some "topsecret") "topsecret" "v1" []
      ⟨[], last_valid_status_init⟩).status = 500 ∧
    (get_vehicle_status (some "topsecret") "topsecret" "v1" []
      ⟨[], last_valid_status_init⟩).status ≠ 404 := by
  constructor
  · rfl
  · decide

/-- C8 amended: for an authorized request with the configured vehicle
absent from the refreshed snapshot, `/battery_status` answers 404
(vehicle not found), while `/get_vehicle_status` answers 500. -/
theorem C8_amended_vehicle_absent (secret : String) (vehicle_id : String)
    (upstream : List (String × Vehicle)) (st : ServerState)
    (habsent : lookupVehicle upstream vehicle_id = none) :
    (battery_status (some secret) secret vehicle_id upstream st).status =
      404 ∧
    (get_vehicle_status (some secret) secret vehicle_id upstream st).status =
      500 := by
  constructor
  · simp [battery_status, habsent]
  · simp [get_vehicle_status, habsent]

theorem C8_witness :
    lookupVehicle [] "v1" = none ∧
    ((battery_status (some "topsecret") "topsecret" "v1" []
        ⟨[("v1", vPos)], last_valid_status_init⟩).status = 404 ∧
     (get_vehicle_status (some "topsecret") "topsecret" "v1" []
        ⟨[("v1", vPos)], last_valid_status_init⟩).status = 500) :=
  ⟨rfl,
   C8_amended_vehicle_absent "topsecret" "v1" []
     ⟨[("v1", vPos)], last_valid_status_init⟩ rfl⟩

end KiaShortcuts
